import Mathlib

/-!
Shallow embedding of the tenant-orchestrator reconciliation core.

The repository carries two manager revisions and three handler revisions:

* the current manager (embedded in `README.md`): `ValidateTenantID`,
  `buildEnvVars`, `buildInstanceSpec`, `CreateInstance`, `InstanceURL`,
  `GetInstance` (phase switch keyed on "Running"/"Failed"), `DeleteInstance`,
  `StopInstance`, `StartInstance` — modelled in namespace `K8s`;
* the legacy manager (`internal/k8s/manager.go`): no tenant-id validation,
  `GetInstanceStatus` keyed on "Ready"/"Failed", `GetInstanceEndpoint`
  producing an `http://` URL — modelled in namespace `Legacy`;
* the current handlers (`unnamed/part_001`): UUID gate in the handler,
  crypto-random 32-byte hex gateway token — namespace `Api`;
* the handler revision embedded in `README.md` — namespace `ApiReadme`;
* the oldest handler revision (`unnamed/part_002`) with its positional
  `randString` token generator — namespace `ApiV0`.

The cluster store is modelled as the list of custom-resource documents in the
configured namespace, together with the store's failure behaviour (list and
create failures, and per-name delete failures other than not-found).  Every
operation returns, besides its result, the store calls it issued, so that
"no call to the cluster store" is a statement about the returned trace.
-/

/-- Decide whether a character is a hexadecimal digit (either case),
mirroring the character class `[0-9a-fA-F]` of the `uuidRe` regular
expression. -/
def isHexDigitChar (c : Char) : Bool :=
  (('0' ≤ c && c ≤ '9') || ('a' ≤ c && c ≤ 'f')) || ('A' ≤ c && c ≤ 'F')

/-- The canonical UUID grammar `^[0-9a-fA-F]{8}-[0-9a-fA-F]{4}-[0-9a-fA-F]{4}-[0-9a-fA-F]{4}-[0-9a-fA-F]{12}$`
(the `uuidRe` pattern shared by the manager and the handlers): 36 characters,
dashes at positions 8, 13, 18 and 23, hex digits everywhere else. -/
def uuidMatch (s : String) : Bool :=
  let cs := s.toList
  cs.length == 36 &&
    (List.range 36).all fun i =>
      if i == 8 || i == 13 || i == 18 || i == 23 then cs.getD i ' ' == '-'
      else isHexDigitChar (cs.getD i ' ')

/-- The lower-case hexadecimal alphabet used by `encoding/hex`. -/
def hexDigitChars : List Char := "0123456789abcdef".toList

/-- Encode one byte as two lower-case hex characters, as `hex.EncodeToString`
does byte by byte.  Bytes are 0–255; the reductions mod 16 make the encoder
total on `Nat` without changing its value on actual bytes. -/
def hexByte (b : Nat) : List Char :=
  [hexDigitChars.getD (b / 16 % 16) '0', hexDigitChars.getD (b % 16) '0']

/-- `hex.EncodeToString`: concatenate the two-character encodings of the
bytes. -/
def hexEncode (bs : List Nat) : String :=
  String.mk ((bs.map hexByte).flatten)

/-- Decide whether a character can occur in the output of `hexEncode`
(a lower-case hexadecimal digit). -/
def isLowerHexChar (c : Char) : Bool :=
  ('0' ≤ c && c ≤ '9') || ('a' ≤ c && c ≤ 'f')

/-- One entry of the `spec.env` list of the custom resource
(`{"name": ..., "value": ...}`). -/
structure EnvVar where
  name : String
  value : String
deriving DecidableEq

/-- One host rule of `spec.networking.ingress.hosts`. -/
structure IngressHostRule where
  host : String
  paths : List String
deriving DecidableEq

/-- One entry of `spec.networking.ingress.tls`. -/
structure TLSRule where
  hosts : List String
  secretName : String
deriving DecidableEq

/-- The OpenClawInstance custom-resource document, flattened to the fields the
manager writes in `buildInstanceSpec` and reads back (`metadata.name`, the
`tenant` and `app` labels, `spec.env`, `status.phase`).  `phase` is the
orchestrator-owned `status.phase` sub-field, absent (`none`) until the
operator first reports one. -/
structure ResourceDoc where
  apiVersion : String
  kind : String
  name : String
  resNamespace : String
  labelTenant : String
  labelApp : String
  imageRepository : String
  imageTag : String
  imagePullPolicy : String
  env : List EnvVar
  ingressEnabled : Bool
  ingressClassName : String
  ingressHosts : List IngressHostRule
  ingressTLS : List TLSRule
  requestsMemory : String
  requestsCpu : String
  limitsMemory : String
  limitsCpu : String
  persistenceEnabled : Bool
  storageSize : String
  phase : Option String
deriving DecidableEq

/-- Static configuration consumed by the manager (`config.Config`):
target namespace, public domain suffix and internal domain suffix. -/
structure Config where
  namespaceName : String
  domain : String
  internalDomain : String
deriving DecidableEq

/-- The cluster store, seen through the dynamic client in the configured
namespace: the resource documents plus the store's failure behaviour.
`listError` / `createError` make the next list / create call fail with that
message; `deleteErrors` gives, per resource name, a failure (other than
not-found) for a delete call on that name.  Deleting a name that is absent
from `resources` is the store's not-found response. -/
structure Store where
  resources : List ResourceDoc
  listError : Option String
  createError : Option String
  deleteErrors : String → Option String

/-- One round-trip to the cluster store issued by a manager operation. -/
inductive StoreCall where
  | listCall : String → StoreCall
  | createCall : String → StoreCall
  | deleteCall : String → StoreCall
deriving DecidableEq

instance {ε α : Type} [DecidableEq ε] [DecidableEq α] : DecidableEq (Except ε α) := fun a b =>
  match a, b with
  | .ok x, .ok y =>
    if h : x = y then .isTrue (by rw [h]) else .isFalse (by intro hc; cases hc; exact h rfl)
  | .error x, .error y =>
    if h : x = y then .isTrue (by rw [h]) else .isFalse (by intro hc; cases hc; exact h rfl)
  | .ok _, .error _ => .isFalse (by intro hc; cases hc)
  | .error _, .ok _ => .isFalse (by intro hc; cases hc)

/-- The read-side projection `InstanceInfo` exposed by the current manager. -/
structure InstanceInfo where
  name : String
  endpoint : String
  status : String
  gatewayToken : String
deriving DecidableEq

namespace K8s

/-- The message of the validation error returned by `ValidateTenantID`. -/
def validationErrorMsg : String := "invalid tenant ID: must be a valid UUID"

/-- `ValidateTenantID`: `none` when the id matches `uuidRe`, otherwise the
validation error. -/
def validateTenantID (tenantID : String) : Option String :=
  if uuidMatch tenantID then none else some validationErrorMsg

/-- `InstanceURL`: `fmt.Sprintf("https://%s.%s", instanceName, m.cfg.Domain)`. -/
def instanceURL (cfg : Config) (instanceName : String) : String :=
  "https://" ++ instanceName ++ "." ++ cfg.domain

/-- The fixed allow-list of provider credential names scanned by
`buildEnvVars`. -/
def providerCredentialKeys : List String :=
  ["ANTHROPIC_API_KEY", "OPENAI_API_KEY"]

/-- `buildEnvVars`: gateway token entry, then the production-mode marker, then
each allow-listed credential appended in order when non-empty in the
environment source `getenv` (the manager's `os.Getenv`). -/
def buildEnvVars (getenv : String → String) (gatewayToken : String) : List EnvVar :=
  providerCredentialKeys.foldl
    (fun envs key => if getenv key ≠ "" then envs ++ [⟨key, getenv key⟩] else envs)
    [⟨"OPENCLAW_GATEWAY_TOKEN", gatewayToken⟩, ⟨"NODE_ENV", "production"⟩]

/-- `generateTenantInstanceName`: hex-encode 4 random bytes and apply the
`tenant-` name scheme.  The random source is passed in as the byte list. -/
def generateTenantInstanceName (randomBytes : List Nat) : String :=
  "tenant-" ++ hexEncode randomBytes

/-- `buildInstanceSpec`: the full OpenClawInstance document of the current
manager revision, with `status.phase` absent at creation time. -/
def buildInstanceSpec (cfg : Config) (getenv : String → String)
    (instanceName tenantID gatewayToken : String) : ResourceDoc :=
  { apiVersion := "openclaw.rocks/v1alpha1"
    kind := "OpenClawInstance"
    name := instanceName
    resNamespace := cfg.namespaceName
    labelTenant := tenantID
    labelApp := "tenant-instance"
    imageRepository := "ghcr.io/openclaw/openclaw"
    imageTag := "latest"
    imagePullPolicy := "Always"
    env := buildEnvVars getenv gatewayToken
    ingressEnabled := true
    ingressClassName := "nginx"
    ingressHosts :=
      [⟨instanceName ++ "." ++ cfg.domain, ["/"]⟩,
       ⟨instanceName ++ "." ++ cfg.internalDomain, ["/"]⟩]
    ingressTLS := [⟨[instanceName ++ "." ++ cfg.domain], instanceName ++ "-tls"⟩]
    requestsMemory := "512Mi"
    requestsCpu := "100m"
    limitsMemory := "1536Mi"
    limitsCpu := "1000m"
    persistenceEnabled := true
    storageSize := "1Gi"
    phase := none }

/-- `CreateInstance` of the current manager: validate, generate a name, build
the spec, submit one create call, return the public URL. -/
def createInstance (cfg : Config) (getenv : String → String) (randomBytes : List Nat)
    (st : Store) (tenantID gatewayToken : String) :
    Except String String × Store × List StoreCall :=
  match validateTenantID tenantID with
  | some e => (.error e, st, [])
  | none =>
    let instanceName := generateTenantInstanceName randomBytes
    let inst := buildInstanceSpec cfg getenv instanceName tenantID gatewayToken
    match st.createError with
    | some e =>
      (.error ("failed to create tenant instance: " ++ e), st, [.createCall instanceName])
    | none =>
      (.ok (instanceURL cfg instanceName),
       { st with resources := st.resources ++ [inst] },
       [.createCall instanceName])

/-- `GetInstance` of the current manager: validate, list by the tenant label,
absent on zero matches, otherwise project the first match (phase switch keyed
on "Running"/"Failed", env scan for the token key, endpoint recomputed from
the resource's own name). -/
def getInstance (cfg : Config) (st : Store) (tenantID : String) :
    Except String (Option InstanceInfo) × List StoreCall :=
  match validateTenantID tenantID with
  | some e => (.error e, [])
  | none =>
    match st.listError with
    | some e => (.error ("listing instances: " ++ e), [.listCall ("tenant=" ++ tenantID)])
    | none =>
      match st.resources.filter (fun r => r.labelTenant == tenantID) with
      | [] => (.ok none, [.listCall ("tenant=" ++ tenantID)])
      | item :: _ =>
        let status :=
          match item.phase with
          | none => "starting"
          | some phase =>
            if phase == "Running" then "running"
            else if phase == "Failed" then "error"
            else "starting"
        let gatewayToken :=
          match item.env.find? (fun e => e.name == "OPENCLAW_GATEWAY_TOKEN") with
          | some e => e.value
          | none => ""
        (.ok (some { name := item.name
                     endpoint := instanceURL cfg item.name
                     status := status
                     gatewayToken := gatewayToken }),
         [.listCall ("tenant=" ++ tenantID)])

end K8s

/-- The delete loop shared verbatim by both manager revisions: delete each
listed item by name; a not-found response (the name is no longer in the
store) is treated as success; any other delete failure aborts the loop with
the wrapped error, leaving the deletions already performed in place. -/
def deleteAllLoop (st : Store) (items : List ResourceDoc) :
    Except String Unit × Store × List StoreCall :=
  match items with
  | [] => (.ok (), st, [])
  | r :: rest =>
    match st.deleteErrors r.name with
    | some e =>
      (.error ("failed to delete tenant instance " ++ r.name ++ ": " ++ e), st,
       [.deleteCall r.name])
    | none =>
      let st' := { st with resources := st.resources.filter (fun x => !(x.name == r.name)) }
      let next := deleteAllLoop st' rest
      (next.1, next.2.1, .deleteCall r.name :: next.2.2)

namespace K8s

/-- `DeleteInstance` of the current manager: validate, list by the tenant
label, then delete every match. -/
def deleteInstance (st : Store) (tenantID : String) :
    Except String Unit × Store × List StoreCall :=
  match validateTenantID tenantID with
  | some e => (.error e, st, [])
  | none =>
    match st.listError with
    | some e =>
      (.error ("listing instances for deletion: " ++ e), st,
       [.listCall ("tenant=" ++ tenantID)])
    | none =>
      let next := deleteAllLoop st (st.resources.filter (fun r => r.labelTenant == tenantID))
      (next.1, next.2.1, .listCall ("tenant=" ++ tenantID) :: next.2.2)

/-- `StopInstance` of the current manager: delegates to `DeleteInstance`. -/
def stopInstance (st : Store) (tenantID : String) :
    Except String Unit × Store × List StoreCall :=
  deleteInstance st tenantID

/-- `StartInstance` of the current manager: the fixed unsupported-operation
rejection, with no store call. -/
def startInstance (st : Store) (tenantID : String) :
    Except String Unit × Store × List StoreCall :=
  (.error "StartInstance not supported — use CreateInstance instead", st, [])

end K8s

namespace Legacy

/-- `GetInstanceEndpoint` of the legacy manager:
`fmt.Sprintf("http://%s.wareit.ai", instanceName)`. -/
def getInstanceEndpoint (instanceName : String) : String :=
  "http://" ++ instanceName ++ ".wareit.ai"

/-- `GetInstanceStatus` of the legacy manager: no tenant-id validation; list
by the tenant label; `"not_found"` on zero matches; otherwise switch on the
first match's `status.phase` keyed on "Ready"/"Failed", defaulting to
"starting" (also when the phase field is absent). -/
def getInstanceStatus (st : Store) (tenantID : String) :
    Except String String × List StoreCall :=
  match st.listError with
  | some e => (.error ("listing instances: " ++ e), [.listCall ("tenant=" ++ tenantID)])
  | none =>
    match st.resources.filter (fun r => r.labelTenant == tenantID) with
    | [] => (.ok "not_found", [.listCall ("tenant=" ++ tenantID)])
    | item :: _ =>
      let status :=
        match item.phase with
        | none => "starting"
        | some phase =>
          if phase == "Ready" then "running"
          else if phase == "Failed" then "error"
          else "starting"
      (.ok status, [.listCall ("tenant=" ++ tenantID)])

/-- `DeleteInstance` of the legacy manager: same list-and-delete-all loop as
the current revision, but with no tenant-id validation. -/
def deleteInstance (st : Store) (tenantID : String) :
    Except String Unit × Store × List StoreCall :=
  match st.listError with
  | some e =>
    (.error ("listing instances for deletion: " ++ e), st,
     [.listCall ("tenant=" ++ tenantID)])
  | none =>
    let next := deleteAllLoop st (st.resources.filter (fun r => r.labelTenant == tenantID))
    (next.1, next.2.1, .listCall ("tenant=" ++ tenantID) :: next.2.2)

/-- `StopInstance` of the legacy manager: delegates to `DeleteInstance`. -/
def stopInstance (st : Store) (tenantID : String) :
    Except String Unit × Store × List StoreCall :=
  deleteInstance st tenantID

/-- `StartInstance` of the legacy manager: the fixed unsupported-operation
rejection, with no store call. -/
def startInstance (st : Store) (tenantID : String) :
    Except String Unit × Store × List StoreCall :=
  (.error "StartInstance not supported - use CreateInstance instead", st, [])

end Legacy

/-- Decode outcome of the optional JSON request body of the create handler:
either the decoder failed (missing body or unparseable JSON) or it produced
a `gateway_token` field value (the empty string when the field is absent). -/
inductive RequestBody where
  | malformed : RequestBody
  | jsonBody : String → RequestBody
deriving DecidableEq

namespace Api

/-- `generateToken` of the current handlers (`unnamed/part_001`): hex-encode
32 bytes from the crypto-random source, passed in as the byte list. -/
def generateToken (randomBytes : List Nat) : String :=
  hexEncode randomBytes

/-- The gateway token the create handler passes to the manager: the supplied
`gateway_token` when the body decoded and the field is non-empty, otherwise a
freshly generated token. -/
def requestGatewayToken (body : RequestBody) (randomBytes : List Nat) : String :=
  match body with
  | .malformed => generateToken randomBytes
  | .jsonBody t => if t == "" then generateToken randomBytes else t

/-- The JSON envelope returned by the current handlers. -/
structure InstanceResponse where
  name : String
  endpoint : String
  status : String
  gatewayToken : String
deriving DecidableEq

/-- `GetInstance` handler of the current revision (`unnamed/part_001`): 400
on a non-UUID path parameter (before any manager call), 500 on a manager
error, 404 when the manager reports no instance, otherwise 200 with the
serialised `InstanceInfo`. -/
def getInstanceHandler (cfg : Config) (st : Store) (rawId : String) :
    Nat × Option InstanceResponse :=
  if !(uuidMatch rawId) then (400, none)
  else
    match (K8s.getInstance cfg st rawId).1 with
    | .error _ => (500, none)
    | .ok none => (404, none)
    | .ok (some info) =>
      (200, some { name := info.name
                   endpoint := info.endpoint
                   status := info.status
                   gatewayToken := info.gatewayToken })

end Api

/-- The two-field JSON envelope of the handler revisions embedded in
`README.md` and in `unnamed/part_002`. -/
structure InstanceResponseV0 where
  endpoint : String
  status : String
deriving DecidableEq

namespace ApiReadme

/-- `GetInstance` handler embedded in `README.md`: no handler-side UUID gate
(the manager's validation error surfaces as 500); 404 when the manager
reports no instance; otherwise 200 with `Endpoint` set to `info.Name` — the
bare resource name — and the projected status. -/
def getInstanceHandler (cfg : Config) (st : Store) (rawId : String) :
    Nat × Option InstanceResponseV0 :=
  match (K8s.getInstance cfg st rawId).1 with
  | .error _ => (500, none)
  | .ok none => (404, none)
  | .ok (some info) => (200, some { endpoint := info.name, status := info.status })

end ApiReadme

namespace ApiV0

/-- The fixed alphabet of `randString` in `unnamed/part_002`. -/
def letters : String :=
  "abcdefghijklmnopqrstuvwxyzABCDEFGHIJKLMNOPQRSTUVWXYZ0123456789"

/-- `randString` of `unnamed/part_002`: despite its name it draws no
randomness — character `i` is `letters[i % len(letters)]`. -/
def randString (n : Nat) : String :=
  String.mk ((List.range n).map fun i => letters.toList.getD (i % letters.length) 'a')

/-- `generateToken` of `unnamed/part_002`: `"token-" + randString(32)`.  The
`Unit` argument stands for one invocation of the nullary Go function. -/
def generateToken (u : Unit) : String :=
  "token-" ++ randString 32

end ApiV0

/-! Concrete fixtures used by witnesses and counterexamples. -/

/-- A well-formed tenant id (canonical UUID form). -/
def tidW : String := "00000000-0000-0000-0000-000000000000"

/-- The default configuration values of `config.Load`. -/
def cfgW : Config :=
  { namespaceName := "tenants", domain := "wareit.ai", internalDomain := "internal.wareit.ai" }

/-- An environment source with no provider credentials configured. -/
def getenvW : String → String := fun _ => ""

/-- A resource for `tidW` whose orchestrator phase is "Running". -/
def docRunning : ResourceDoc :=
  { K8s.buildInstanceSpec cfgW getenvW "tenant-0a0a0a0a" tidW "tok123" with
      phase := some "Running" }

/-- A resource for `tidW` whose orchestrator phase is "Ready". -/
def docReady : ResourceDoc :=
  { K8s.buildInstanceSpec cfgW getenvW "tenant-0b0b0b0b" tidW "tok123" with
      phase := some "Ready" }

/-- An empty store with no failure behaviour. -/
def stEmpty : Store :=
  { resources := [], listError := none, createError := none, deleteErrors := fun _ => none }

/-- A store holding exactly `docRunning`. -/
def stRunning : Store :=
  { resources := [docRunning], listError := none, createError := none,
    deleteErrors := fun _ => none }

/-- A store holding exactly `docReady`. -/
def stReady : Store :=
  { resources := [docReady], listError := none, createError := none,
    deleteErrors := fun _ => none }

/-- A first resource of tenant `tidW`. -/
def docA : ResourceDoc := K8s.buildInstanceSpec cfgW getenvW "tenant-aaaaaaaa" tidW "tokA"

/-- A second resource of tenant `tidW` (a duplicate-create leftover). -/
def docB : ResourceDoc := K8s.buildInstanceSpec cfgW getenvW "tenant-bbbbbbbb" tidW "tokB"

/-- A tenant id distinct from `tidW`. -/
def tidOther : String := "11111111-1111-1111-1111-111111111111"

/-- A resource belonging to the other tenant. -/
def docOther : ResourceDoc :=
  K8s.buildInstanceSpec cfgW getenvW "tenant-cccccccc" tidOther "tokC"

/-- A store holding two resources of `tidW` and one of `tidOther`, with no
failure behaviour. -/
def stMulti : Store :=
  { resources := [docA, docOther, docB], listError := none, createError := none,
    deleteErrors := fun _ => none }

/-- An environment source configuring one provider credential. -/
def gW1 : String → String :=
  fun k => if k == "ANTHROPIC_API_KEY" then "keyA" else ""

/-- The same provider credentials as `gW1`, different outside the
allow-list. -/
def gW2 : String → String :=
  fun k => if k == "ANTHROPIC_API_KEY" then "keyA" else if k == "HOME" then "/root" else ""

/-- 32 concrete bytes standing for the crypto-random token source. -/
def tokenBytesW : List Nat := List.replicate 32 171

/-- 4 concrete bytes standing for the crypto-random name source. -/
def nameBytesW : List Nat := [1, 2, 3, 4]

/-! Helper lemmas about the hex encoder, the env list builder and the delete
loop. -/

/-- Every character drawn from the hex alphabet at a reduced index is a
lower-case hex digit. -/
lemma isLowerHexChar_getD (i : Nat) :
    isLowerHexChar (hexDigitChars.getD (i % 16) '0') = true := by
  have h : i % 16 < 16 := Nat.mod_lt _ (by decide)
  generalize i % 16 = j at h
  interval_cases j <;> decide

/-- Both characters of an encoded byte are lower-case hex digits. -/
lemma hexByte_chars (b : Nat) : (hexByte b).all isLowerHexChar = true := by
  simp only [hexByte, List.all_cons, List.all_nil, Bool.and_true]
  rw [isLowerHexChar_getD (b / 16), isLowerHexChar_getD b]
  rfl

/-- `hexEncode` produces two characters per byte. -/
lemma hexEncode_length (bs : List Nat) : (hexEncode bs).length = 2 * bs.length := by
  show ((bs.map hexByte).flatten).length = 2 * bs.length
  induction bs with
  | nil => rfl
  | cons b rest ih =>
    simp only [List.map_cons, List.flatten_cons, List.length_append, ih, hexByte,
      List.length_cons, List.length_nil, List.length_cons]
    omega

/-- Every character of a `hexEncode` output is a lower-case hex digit. -/
lemma hexEncode_chars (bs : List Nat) :
    (hexEncode bs).toList.all isLowerHexChar = true := by
  show ((bs.map hexByte).flatten).all isLowerHexChar = true
  induction bs with
  | nil => rfl
  | cons b rest ih =>
    simp only [List.map_cons, List.flatten_cons, List.all_append, ih, hexByte_chars]
    rfl

/-- An inhabited-string test rendered at the `Bool` level. -/
lemma beq_empty_false {s : String} (h : s ≠ "") : (s == "") = false := by
  cases hb : s == "" with
  | true => exact absurd (eq_of_beq hb) h
  | false => rfl

/-- Structural characterisation of `buildEnvVars`: the fixed gateway-token
entry, the fixed production marker, then the non-empty allow-listed
credentials in allow-list order. -/
lemma buildEnvVars_eq (getenv : String → String) (tok : String) :
    K8s.buildEnvVars getenv tok =
      ⟨"OPENCLAW_GATEWAY_TOKEN", tok⟩ :: ⟨"NODE_ENV", "production"⟩ ::
        ((K8s.providerCredentialKeys.filter fun k => !(getenv k == "")).map
          fun k => (⟨k, getenv k⟩ : EnvVar)) := by
  by_cases h₁ : getenv "ANTHROPIC_API_KEY" = "" <;>
    by_cases h₂ : getenv "OPENAI_API_KEY" = "" <;>
      simp [K8s.buildEnvVars, K8s.providerCredentialKeys, List.foldl, List.filter,
        h₁, h₂, beq_empty_false]

/-- The env list built for a token always carries that token under the fixed
key, as its first entry. -/
lemma find_gateway_token (getenv : String → String) (tok : String) :
    (K8s.buildEnvVars getenv tok).find? (fun e => e.name == "OPENCLAW_GATEWAY_TOKEN")
      = some ⟨"OPENCLAW_GATEWAY_TOKEN", tok⟩ := by
  rw [buildEnvVars_eq]
  rfl

/-- When every listed item can be deleted, the delete loop succeeds, removes
exactly the resources whose names occur among the listed items, and issues
one delete call per item. -/
lemma deleteAllLoop_ok (items : List ResourceDoc) (st : Store)
    (h : ∀ r ∈ items, st.deleteErrors r.name = none) :
    deleteAllLoop st items =
      (.ok (),
       { st with resources :=
           st.resources.filter fun x => !((items.map fun r => r.name).any fun n => x.name == n) },
       items.map fun r => .deleteCall r.name) := by
  induction items generalizing st with
  | nil =>
    simp [deleteAllLoop]
  | cons r rest ih =>
    have hr : st.deleteErrors r.name = none := h r (List.mem_cons_self r rest)
    have hrest : ∀ p ∈ rest,
        ({ st with resources := st.resources.filter fun x => !(x.name == r.name) } :
          Store).deleteErrors p.name = none :=
      fun p hp => h p (List.mem_cons_of_mem r hp)
    have hres : (st.resources.filter fun x => !(x.name == r.name)).filter
        (fun x => !((rest.map fun r => r.name).any fun n => x.name == n)) =
        st.resources.filter fun x =>
          !(((r :: rest).map fun r => r.name).any fun n => x.name == n) := by
      rw [List.filter_filter]
      apply List.filter_congr
      intro x _
      simp only [List.map_cons, List.any_cons, Bool.not_or]
      rw [Bool.and_comm]
    simp only [deleteAllLoop, hr, ih _ hrest, List.map_cons]
    rw [show ((r :: rest).map fun r => r.name) = r.name :: (rest.map fun r => r.name)
      from List.map_cons _ _ _] at hres
    rw [hres]

/-- When a prefix of the listed items deletes cleanly and the next item's
delete fails with an error other than not-found, the loop stops there: it
returns the wrapped error, has removed exactly the prefix, and has issued
delete calls for the prefix and the failing item only. -/
lemma deleteAllLoop_error (pre : List ResourceDoc) (r : ResourceDoc)
    (post : List ResourceDoc) (st : Store) (e : String)
    (hpre : ∀ p ∈ pre, st.deleteErrors p.name = none)
    (hr : st.deleteErrors r.name = some e) :
    deleteAllLoop st (pre ++ r :: post) =
      (.error ("failed to delete tenant instance " ++ r.name ++ ": " ++ e),
       { st with resources :=
           st.resources.filter fun x => !((pre.map fun p => p.name).any fun n => x.name == n) },
       (pre.map fun p => StoreCall.deleteCall p.name) ++ [.deleteCall r.name]) := by
  induction pre generalizing st with
  | nil =>
    simp [deleteAllLoop, hr]
  | cons p pre' ih =>
    have hp : st.deleteErrors p.name = none := hpre p (List.mem_cons_self p pre')
    have hpre' : ∀ q ∈ pre',
        ({ st with resources := st.resources.filter fun x => !(x.name == p.name) } :
          Store).deleteErrors q.name = none :=
      fun q hq => hpre q (List.mem_cons_of_mem p hq)
    have hres : (st.resources.filter fun x => !(x.name == p.name)).filter
        (fun x => !((pre'.map fun p => p.name).any fun n => x.name == n)) =
        st.resources.filter fun x =>
          !((p.name :: pre'.map fun p => p.name).any fun n => x.name == n) := by
      rw [List.filter_filter]
      apply List.filter_congr
      intro x _
      simp only [List.any_cons, Bool.not_or]
      rw [Bool.and_comm]
    show deleteAllLoop st (p :: (pre' ++ r :: post)) = _
    simp only [deleteAllLoop, hp, ih _ hpre' hr, List.map_cons, List.cons_append]
    rw [hres]

/-- Under unique resource names (the store's per-namespace invariant),
removing the names of the label matches removes exactly the label matches. -/
lemma filter_matching_names (l : List ResourceDoc) (tid : String)
    (hnd : (l.map fun r => r.name).Nodup) :
    (l.filter fun x =>
        !(((l.filter fun r => r.labelTenant == tid).map fun r => r.name).any
          fun n => x.name == n)) =
      l.filter fun x => !(x.labelTenant == tid) := by
  apply List.filter_congr
  intro x hx
  have key : (((l.filter fun r => r.labelTenant == tid).map fun r => r.name).any
      fun n => x.name == n) = (x.labelTenant == tid) := by
    cases hlab : x.labelTenant == tid with
    | true =>
      have hmem : x ∈ l.filter fun r => r.labelTenant == tid :=
        List.mem_filter.2 ⟨hx, hlab⟩
      have hnm : x.name ∈ (l.filter fun r => r.labelTenant == tid).map fun r => r.name :=
        List.mem_map_of_mem _ hmem
      exact List.any_eq_true.2 ⟨x.name, hnm, by simp⟩
    | false =>
      cases hany : ((l.filter fun r => r.labelTenant == tid).map fun r => r.name).any
          fun n => x.name == n with
      | false => rfl
      | true =>
        exfalso
        obtain ⟨nm, hnm, hbeq⟩ := List.any_eq_true.1 hany
        obtain ⟨m, hm, hmn⟩ := List.mem_map.1 hnm
        have hml : m ∈ l := (List.mem_filter.1 hm).1
        have hmlab : (m.labelTenant == tid) = true := (List.mem_filter.1 hm).2
        have hxm : x = m :=
          List.inj_on_of_nodup_map hnd hx hml ((eq_of_beq hbeq).trans hmn.symm)
        rw [hxm, hmlab] at hlab
        exact Bool.noConfusion hlab
  rw [key]

/-- C5: for every gateway token and environment source, the built env list is
the gateway-token entry under `OPENCLAW_GATEWAY_TOKEN`, then the fixed
`NODE_ENV=production` marker, then the non-empty allow-listed provider
credentials in the allow-list's order; the list is determined by the token
and the allow-listed values alone. -/
theorem c5_buildEnvVars_order :
    (∀ (getenv : String → String) (tok : String),
      K8s.buildEnvVars getenv tok =
        ⟨"OPENCLAW_GATEWAY_TOKEN", tok⟩ :: ⟨"NODE_ENV", "production"⟩ ::
          ((K8s.providerCredentialKeys.filter fun k => !(getenv k == "")).map
            fun k => (⟨k, getenv k⟩ : EnvVar))) ∧
    (∀ (g₁ g₂ : String → String) (tok : String),
      (∀ k ∈ K8s.providerCredentialKeys, g₁ k = g₂ k) →
      K8s.buildEnvVars g₁ tok = K8s.buildEnvVars g₂ tok) := by
  refine ⟨buildEnvVars_eq, ?_⟩
  intro g₁ g₂ tok h
  have h₁ : g₁ "ANTHROPIC_API_KEY" = g₂ "ANTHROPIC_API_KEY" :=
    h _ (by simp [K8s.providerCredentialKeys])
  have h₂ : g₁ "OPENAI_API_KEY" = g₂ "OPENAI_API_KEY" :=
    h _ (by simp [K8s.providerCredentialKeys])
  simp [K8s.buildEnvVars, K8s.providerCredentialKeys, h₁, h₂]

/-- Witness for C5 at a concrete environment source and token. -/
theorem c5_buildEnvVars_order_witness :
    K8s.buildEnvVars gW1 "tok" =
      [⟨"OPENCLAW_GATEWAY_TOKEN", "tok"⟩, ⟨"NODE_ENV", "production"⟩,
       ⟨"ANTHROPIC_API_KEY", "keyA"⟩] ∧
    K8s.buildEnvVars gW1 "tok" = K8s.buildEnvVars gW2 "tok" := by
  constructor
  · rw [c5_buildEnvVars_order.1 gW1 "tok"]
    decide
  · exact c5_buildEnvVars_order.2 gW1 gW2 "tok" (by decide)

/-- C7: for a valid tenant id with no matching resources, `GetInstance`
returns the absent sentinel (`ok none`, not an error), and the handler maps
it to 404, not 5xx. -/
theorem c7_absent_not_error (cfg : Config) (st : Store) (tid : String)
    (hv : uuidMatch tid = true) (hl : st.listError = none)
    (hz : st.resources.filter (fun r => r.labelTenant == tid) = []) :
    (K8s.getInstance cfg st tid).1 = .ok none ∧
    Api.getInstanceHandler cfg st tid = (404, none) := by
  have hval : K8s.validateTenantID tid = none := by simp [K8s.validateTenantID, hv]
  have hget : (K8s.getInstance cfg st tid).1 = .ok none := by
    simp [K8s.getInstance, hval, hl, hz]
  exact ⟨hget, by simp [Api.getInstanceHandler, hv, hget]⟩

/-- Witness for C7 on the empty store. -/
theorem c7_absent_not_error_witness :
    (K8s.getInstance cfgW stEmpty tidW).1 = .ok none ∧
    Api.getInstanceHandler cfgW stEmpty tidW = (404, none) :=
  c7_absent_not_error cfgW stEmpty tidW (by decide) rfl rfl

/-- C8: `StopInstance` is extensionally `DeleteInstance` — same result, same
store effect, same calls — in both manager revisions. -/
theorem c8_stop_is_delete :
    ∀ (st : Store) (tid : String),
      K8s.stopInstance st tid = K8s.deleteInstance st tid ∧
      Legacy.stopInstance st tid = Legacy.deleteInstance st tid :=
  fun _ _ => ⟨rfl, rfl⟩

/-- C9: `StartInstance` always returns the fixed unsupported-operation error,
leaves the store untouched and issues no store call, for every tenant id
(valid or not) and store state, in both manager revisions. -/
theorem c9_start_unsupported :
    ∀ (st : Store) (tid : String),
      K8s.startInstance st tid =
        (.error "StartInstance not supported — use CreateInstance instead", st, []) ∧
      Legacy.startInstance st tid =
        (.error "StartInstance not supported - use CreateInstance instead", st, []) :=
  fun _ _ => ⟨rfl, rfl⟩

/-- C10: in the `unnamed/part_002` handler revision, `generateToken` is a
constant function: every invocation yields `"token-"` followed by the 32
characters picked by position from the fixed alphabet — no randomness. -/
theorem c10_generateToken_constant :
    (∀ u v : Unit, ApiV0.generateToken u = ApiV0.generateToken v) ∧
    ApiV0.generateToken () = "token-" ++ ApiV0.randString 32 ∧
    ApiV0.generateToken () = "token-abcdefghijklmnopqrstuvwxyzABCDEF" := by
  refine ⟨fun _ _ => rfl, rfl, ?_⟩
  decide

/-- C1 counterexample: the legacy `GetInstanceStatus` projects the phase
"Ready" — which is outside {"Running", "Failed"} — to "running", not to
"starting". -/
theorem c1_counterexample :
    docReady.phase = some "Ready" ∧
    ("Ready" ≠ "Running" ∧ "Ready" ≠ "Failed") ∧
    (Legacy.getInstanceStatus stReady tidW).1 = .ok "running" ∧
    ("running" : String) ≠ "starting" := by
  refine ⟨rfl, by decide, rfl, by decide⟩

/-- C1 as amended: the current `GetInstance` (README manager and
`unnamed/part_003`) projects the first match's phase by the pure total table
"Running" → running, "Failed" → error, anything else or absent → starting;
the legacy `GetInstanceStatus` instead uses the table "Ready" → running,
"Failed" → error, anything else or absent → starting. -/
theorem c1_status_projection :
    (∀ (cfg : Config) (st : Store) (tid : String) (r : ResourceDoc)
        (rest : List ResourceDoc),
      uuidMatch tid = true → st.listError = none →
      st.resources.filter (fun x => x.labelTenant == tid) = r :: rest →
      ∃ info : InstanceInfo,
        (K8s.getInstance cfg st tid).1 = .ok (some info) ∧
        info.status =
          (if r.phase = some "Running" then "running"
           else if r.phase = some "Failed" then "error" else "starting")) ∧
    (∀ (st : Store) (tid : String) (r : ResourceDoc) (rest : List ResourceDoc),
      st.listError = none →
      st.resources.filter (fun x => x.labelTenant == tid) = r :: rest →
      (Legacy.getInstanceStatus st tid).1 =
        .ok (if r.phase = some "Ready" then "running"
             else if r.phase = some "Failed" then "error" else "starting")) := by
  constructor
  · intro cfg st tid r rest hv hl hf
    have hval : K8s.validateTenantID tid = none := by simp [K8s.validateTenantID, hv]
    refine ⟨{ name := r.name
              endpoint := K8s.instanceURL cfg r.name
              status :=
                match r.phase with
                | none => "starting"
                | some phase =>
                  if phase == "Running" then "running"
                  else if phase == "Failed" then "error"
                  else "starting"
              gatewayToken :=
                match r.env.find? (fun e => e.name == "OPENCLAW_GATEWAY_TOKEN") with
                | some e => e.value
                | none => "" }, ?_, ?_⟩
    · simp [K8s.getInstance, hval, hl, hf]
    · show (match r.phase with
        | none => "starting"
        | some phase =>
          if phase == "Running" then "running"
          else if phase == "Failed" then "error"
          else "starting") = _
      cases hp : r.phase with
      | none => simp
      | some p =>
        simp only [Option.some.injEq]
        by_cases hR : p = "Running"
        · simp [hR]
        · by_cases hF : p = "Failed"
          · simp [hR, hF]
          · simp [hR, hF]
  · intro st tid r rest hl hf
    simp only [Legacy.getInstanceStatus, hl, hf]
    cases hp : r.phase with
    | none => simp
    | some p =>
      simp only [Option.some.injEq]
      by_cases hR : p = "Ready"
      · simp [hR]
      · by_cases hF : p = "Failed"
        · simp [hR, hF]
        · simp [hR, hF]

/-- Witness for C1 on a store whose single resource reports phase "Running":
the current projection says running, the legacy one says starting. -/
theorem c1_status_projection_witness :
    (∃ info : InstanceInfo,
      (K8s.getInstance cfgW stRunning tidW).1 = .ok (some info) ∧
      info.status = "running") ∧
    (Legacy.getInstanceStatus stRunning tidW).1 = .ok "starting" := by
  constructor
  · obtain ⟨info, h1, h2⟩ :=
      c1_status_projection.1 cfgW stRunning tidW docRunning [] (by decide) rfl (by decide)
    refine ⟨info, h1, ?_⟩
    rw [h2]
    decide
  · have h := c1_status_projection.2 stRunning tidW docRunning [] rfl (by decide)
    rw [h]
    decide

/-- C2 counterexample: for a non-UUID tenant id, `StartInstance` of the
current manager returns the fixed unsupported-operation error, not a
`ValidationError`. -/
theorem c2_counterexample :
    uuidMatch "not-a-uuid" = false ∧
    K8s.startInstance stEmpty "not-a-uuid" =
      (.error "StartInstance not supported — use CreateInstance instead", stEmpty, []) ∧
    ("StartInstance not supported — use CreateInstance instead" : String) ≠
      K8s.validationErrorMsg := by
  refine ⟨by decide, rfl, by decide⟩

/-- C2 as amended: in the current manager revision, for every string outside
the UUID grammar, `CreateInstance`, `GetInstance`, `DeleteInstance` and
`StopInstance` return the `ValidationError` without issuing any store call
and without touching the store; `StartInstance` also issues no store call,
but returns the fixed unsupported-operation error instead of a
`ValidationError`. -/
theorem c2_validation_gate (cfg : Config) (getenv : String → String)
    (randomBytes : List Nat) (st : Store) (s tok : String)
    (h : uuidMatch s = false) :
    K8s.createInstance cfg getenv randomBytes st s tok =
      (.error K8s.validationErrorMsg, st, []) ∧
    K8s.getInstance cfg st s = (.error K8s.validationErrorMsg, []) ∧
    K8s.deleteInstance st s = (.error K8s.validationErrorMsg, st, []) ∧
    K8s.stopInstance st s = (.error K8s.validationErrorMsg, st, []) ∧
    K8s.startInstance st s =
      (.error "StartInstance not supported — use CreateInstance instead", st, []) := by
  have hval : K8s.validateTenantID s = some K8s.validationErrorMsg := by
    simp [K8s.validateTenantID, h]
  refine ⟨?_, ?_, ?_, ?_, rfl⟩ <;>
    simp [K8s.createInstance, K8s.getInstance, K8s.deleteInstance, K8s.stopInstance, hval]

/-- Witness for C2 at the concrete non-UUID string. -/
theorem c2_validation_gate_witness :
    K8s.createInstance cfgW getenvW nameBytesW stEmpty "not-a-uuid" "tok" =
      (.error K8s.validationErrorMsg, stEmpty, []) ∧
    K8s.getInstance cfgW stEmpty "not-a-uuid" = (.error K8s.validationErrorMsg, []) ∧
    K8s.deleteInstance stEmpty "not-a-uuid" = (.error K8s.validationErrorMsg, stEmpty, []) ∧
    K8s.stopInstance stEmpty "not-a-uuid" = (.error K8s.validationErrorMsg, stEmpty, []) ∧
    K8s.startInstance stEmpty "not-a-uuid" =
      (.error "StartInstance not supported — use CreateInstance instead", stEmpty, []) :=
  c2_validation_gate cfgW getenvW nameBytesW stEmpty "not-a-uuid" "tok" (by decide)

/-- Full characterisation of a successful `GetInstance` read: the returned
info is built from the first label match only — its name, the URL recomputed
from that name, the phase projection, and the env-list token scan. -/
lemma getInstance_first (cfg : Config) (st : Store) (tid : String) (r : ResourceDoc)
    (rest : List ResourceDoc) (hv : uuidMatch tid = true) (hl : st.listError = none)
    (hf : st.resources.filter (fun x => x.labelTenant == tid) = r :: rest) :
    (K8s.getInstance cfg st tid).1 =
      .ok (some
        { name := r.name
          endpoint := K8s.instanceURL cfg r.name
          status :=
            match r.phase with
            | none => "starting"
            | some phase =>
              if phase == "Running" then "running"
              else if phase == "Failed" then "error"
              else "starting"
          gatewayToken :=
            match r.env.find? (fun e => e.name == "OPENCLAW_GATEWAY_TOKEN") with
            | some e => e.value
            | none => "" }) := by
  have hval : K8s.validateTenantID tid = none := by simp [K8s.validateTenantID, hv]
  simp [K8s.getInstance, hval, hl, hf]

/-- C3 counterexample: the handler revision embedded in README.md reports
`info.Name` — the bare resource name — as the endpoint, not
`https://<name>.<domain>`. -/
theorem c3_counterexample :
    ApiReadme.getInstanceHandler cfgW stRunning tidW =
      (200, some { endpoint := "tenant-0a0a0a0a", status := "running" }) ∧
    ("tenant-0a0a0a0a" : String) ≠
      "https://" ++ "tenant-0a0a0a0a" ++ "." ++ cfgW.domain := by
  refine ⟨by decide, by decide⟩

/-- C3 as amended: the manager computes the endpoint as
`https://<resource-name>.<configured-domain>` — a function of only the first
match's name and the configured domain, insensitive to every other field of
the resource document — and the current handler reports exactly that value;
the handler revision embedded in README.md instead reports the bare resource
name in its endpoint field. -/
theorem c3_endpoint_formula :
    (∀ (cfg : Config) (nm : String),
      K8s.instanceURL cfg nm = "https://" ++ nm ++ "." ++ cfg.domain) ∧
    (∀ (cfg : Config) (st : Store) (tid : String) (r : ResourceDoc)
        (rest : List ResourceDoc),
      uuidMatch tid = true → st.listError = none →
      st.resources.filter (fun x => x.labelTenant == tid) = r :: rest →
      ∃ info : InstanceInfo,
        (K8s.getInstance cfg st tid).1 = .ok (some info) ∧
        info.name = r.name ∧
        info.endpoint = "https://" ++ r.name ++ "." ++ cfg.domain ∧
        Api.getInstanceHandler cfg st tid =
          (200, some { name := info.name
                       endpoint := info.endpoint
                       status := info.status
                       gatewayToken := info.gatewayToken })) ∧
    (∀ (cfg : Config) (st st' : Store) (tid tid' : String) (r r' : ResourceDoc)
        (rest rest' : List ResourceDoc) (info info' : InstanceInfo),
      uuidMatch tid = true → st.listError = none →
      st.resources.filter (fun x => x.labelTenant == tid) = r :: rest →
      uuidMatch tid' = true → st'.listError = none →
      st'.resources.filter (fun x => x.labelTenant == tid') = r' :: rest' →
      (K8s.getInstance cfg st tid).1 = .ok (some info) →
      (K8s.getInstance cfg st' tid').1 = .ok (some info') →
      r.name = r'.name → info.endpoint = info'.endpoint) := by
  refine ⟨fun _ _ => rfl, ?_, ?_⟩
  · intro cfg st tid r rest hv hl hf
    refine ⟨_, getInstance_first cfg st tid r rest hv hl hf, rfl, rfl, ?_⟩
    simp [Api.getInstanceHandler, hv, getInstance_first cfg st tid r rest hv hl hf]
  · intro cfg st st' tid tid' r r' rest rest' info info'
    intro hv hl hf hv' hl' hf' hres hres' hname
    have e1 := (getInstance_first cfg st tid r rest hv hl hf).symm.trans hres
    have e2 := (getInstance_first cfg st' tid' r' rest' hv' hl' hf').symm.trans hres'
    simp only [Except.ok.injEq, Option.some.injEq] at e1 e2
    rw [← e1, ← e2]
    show K8s.instanceURL cfg r.name = K8s.instanceURL cfg r'.name
    rw [hname]

/-- Witness for C3 on a concrete store: the manager-side endpoint is the
https URL, while the README-handler response carries the bare name. -/
theorem c3_endpoint_formula_witness :
    (∃ info : InstanceInfo,
      (K8s.getInstance cfgW stRunning tidW).1 = .ok (some info) ∧
      info.name = "tenant-0a0a0a0a" ∧
      info.endpoint = "https://" ++ "tenant-0a0a0a0a" ++ "." ++ cfgW.domain ∧
      Api.getInstanceHandler cfgW stRunning tidW =
        (200, some { name := info.name
                     endpoint := info.endpoint
                     status := info.status
                     gatewayToken := info.gatewayToken })) ∧
    K8s.instanceURL cfgW "tenant-0a0a0a0a" = "https://tenant-0a0a0a0a.wareit.ai" := by
  constructor
  · obtain ⟨info, h1, h2, h3, h4⟩ :=
      c3_endpoint_formula.2.1 cfgW stRunning tidW docRunning [] (by decide) rfl (by decide)
    exact ⟨info, h1, h2, h3, h4⟩
  · exact c3_endpoint_formula.1 cfgW "tenant-0a0a0a0a"

/-- C4: with a valid tenant id and a healthy store, created resources store
the handler-chosen gateway token as the env-list entry under the fixed key;
when the body is missing/unparseable or carries an empty token the stored
token is the server-generated 64-character lower-case hex string, and when
the body carries a non-empty token the stored token is exactly that value. -/
theorem c4_gateway_token (cfg : Config) (getenv : String → String)
    (nameBytes tokenBytes : List Nat) (st : Store) (tid : String) (body : RequestBody)
    (hv : uuidMatch tid = true) (hc : st.createError = none)
    (hlen : tokenBytes.length = 32) :
    (K8s.createInstance cfg getenv nameBytes st tid
        (Api.requestGatewayToken body tokenBytes)).1 =
      .ok (K8s.instanceURL cfg (K8s.generateTenantInstanceName nameBytes)) ∧
    (K8s.createInstance cfg getenv nameBytes st tid
        (Api.requestGatewayToken body tokenBytes)).2.1.resources =
      st.resources ++
        [K8s.buildInstanceSpec cfg getenv (K8s.generateTenantInstanceName nameBytes) tid
          (Api.requestGatewayToken body tokenBytes)] ∧
    (K8s.buildInstanceSpec cfg getenv (K8s.generateTenantInstanceName nameBytes) tid
        (Api.requestGatewayToken body tokenBytes)).env.find?
        (fun e => e.name == "OPENCLAW_GATEWAY_TOKEN") =
      some ⟨"OPENCLAW_GATEWAY_TOKEN", Api.requestGatewayToken body tokenBytes⟩ ∧
    ((body = .malformed ∨ body = .jsonBody "") →
      (Api.requestGatewayToken body tokenBytes).length = 64 ∧
      (Api.requestGatewayToken body tokenBytes).toList.all isLowerHexChar = true) ∧
    (∀ t : String, t ≠ "" → body = .jsonBody t →
      Api.requestGatewayToken body tokenBytes = t) := by
  have hval : K8s.validateTenantID tid = none := by simp [K8s.validateTenantID, hv]
  refine ⟨?_, ?_, ?_, ?_, ?_⟩
  · simp [K8s.createInstance, hval, hc]
  · simp [K8s.createInstance, hval, hc]
  · exact find_gateway_token getenv _
  · intro hbody
    have htok : Api.requestGatewayToken body tokenBytes = Api.generateToken tokenBytes := by
      rcases hbody with h | h <;> subst h <;> simp [Api.requestGatewayToken]
    rw [htok]
    refine ⟨?_, hexEncode_chars tokenBytes⟩
    show (hexEncode tokenBytes).length = 64
    rw [hexEncode_length, hlen]
  · intro t ht hbody
    subst hbody
    simp [Api.requestGatewayToken, beq_empty_false ht]

/-- Witness for C4 with a malformed body: the stored token is the generated
64-character lower-case hex string. -/
theorem c4_gateway_token_witness :
    (K8s.createInstance cfgW getenvW nameBytesW stEmpty tidW
        (Api.requestGatewayToken .malformed tokenBytesW)).1 =
      .ok "https://tenant-01020304.wareit.ai" ∧
    (Api.requestGatewayToken .malformed tokenBytesW).length = 64 ∧
    (Api.requestGatewayToken .malformed tokenBytesW).toList.all isLowerHexChar = true := by
  obtain ⟨h1, h2, h3, h4, h5⟩ :=
    c4_gateway_token cfgW getenvW nameBytesW tokenBytesW stEmpty tidW .malformed
      (by decide) rfl (by decide)
  refine ⟨?_, (h4 (Or.inl rfl)).1, (h4 (Or.inl rfl)).2⟩
  rw [h1]
  rfl

/-- C6: with unique resource names, `DeleteInstance` on a valid tenant id
deletes every resource matching the tenant label — not just the first — and
succeeds; since a delete-target-not-found response is success, a second call
on the resulting store also succeeds (no matches remain); and a delete
failure other than not-found aborts the loop, is returned wrapped, and
leaves the deletions already performed in place (exactly the clean prefix is
removed). -/
theorem c6_delete_all_idempotent (st : Store) (tid : String)
    (hv : uuidMatch tid = true) (hl : st.listError = none)
    (hnd : (st.resources.map fun r => r.name).Nodup) :
    ((∀ r ∈ st.resources.filter (fun x => x.labelTenant == tid),
        st.deleteErrors r.name = none) →
      (K8s.deleteInstance st tid).1 = .ok () ∧
      (K8s.deleteInstance st tid).2.1.resources =
        st.resources.filter (fun x => !(x.labelTenant == tid)) ∧
      (K8s.deleteInstance (K8s.deleteInstance st tid).2.1 tid).1 = .ok ()) ∧
    (∀ (pre : List ResourceDoc) (r : ResourceDoc) (post : List ResourceDoc) (e : String),
      st.resources.filter (fun x => x.labelTenant == tid) = pre ++ r :: post →
      (∀ p ∈ pre, st.deleteErrors p.name = none) →
      st.deleteErrors r.name = some e →
      (K8s.deleteInstance st tid).1 =
        .error ("failed to delete tenant instance " ++ r.name ++ ": " ++ e) ∧
      (K8s.deleteInstance st tid).2.1.resources =
        st.resources.filter fun x =>
          !((pre.map fun p => p.name).any fun n => x.name == n)) := by
  have hval : K8s.validateTenantID tid = none := by simp [K8s.validateTenantID, hv]
  constructor
  · intro hok
    have hloop :=
      deleteAllLoop_ok (st.resources.filter fun x => x.labelTenant == tid) st hok
    have hd : K8s.deleteInstance st tid =
        (.ok (),
         { st with resources := st.resources.filter fun x => !(x.labelTenant == tid) },
         .listCall ("tenant=" ++ tid) ::
           ((st.resources.filter fun x => x.labelTenant == tid).map
             fun r => StoreCall.deleteCall r.name)) := by
      simp only [K8s.deleteInstance, hval, hl, hloop]
      rw [filter_matching_names st.resources tid hnd]
    refine ⟨by rw [hd], by rw [hd], ?_⟩
    rw [hd]
    have hz : (st.resources.filter fun x => !(x.labelTenant == tid)).filter
        (fun x => x.labelTenant == tid) = [] := by
      rw [List.filter_filter]
      have : ∀ a ∈ st.resources,
          ((a.labelTenant == tid) && !(a.labelTenant == tid)) = false := by
        intro a _
        cases a.labelTenant == tid <;> rfl
      calc st.resources.filter (fun a => (a.labelTenant == tid) && !(a.labelTenant == tid))
          = st.resources.filter (fun a => false) := List.filter_congr this
        _ = [] := List.filter_false st.resources
    simp only [K8s.deleteInstance, hval, hl, hz, deleteAllLoop]
  · intro pre r post e hsplit hpre hre
    have hloop := deleteAllLoop_error pre r post st e hpre hre
    have hd : K8s.deleteInstance st tid =
        (.error ("failed to delete tenant instance " ++ r.name ++ ": " ++ e),
         { st with resources :=
             st.resources.filter fun x =>
               !((pre.map fun p => p.name).any fun n => x.name == n) },
         .listCall ("tenant=" ++ tid) ::
           ((pre.map fun p => StoreCall.deleteCall p.name) ++ [.deleteCall r.name])) := by
      simp only [K8s.deleteInstance, hval, hl, hsplit, hloop]
    exact ⟨by rw [hd], by rw [hd]⟩

/-- Witness for C6 on a store holding two resources of the tenant and one of
another tenant: both matches are deleted, the other tenant's resource stays,
and the second call succeeds again. -/
theorem c6_delete_all_idempotent_witness :
    (K8s.deleteInstance stMulti tidW).1 = .ok () ∧
    (K8s.deleteInstance stMulti tidW).2.1.resources = [docOther] ∧
    (K8s.deleteInstance (K8s.deleteInstance stMulti tidW).2.1 tidW).1 = .ok () := by
  obtain ⟨h1, h2, h3⟩ :=
    (c6_delete_all_idempotent stMulti tidW (by decide) rfl (by decide)).1
      (fun r _ => rfl)
  refine ⟨h1, ?_, h3⟩
  rw [h2]
  decide
